import Mathlib

/-!
Verification development for the Iterative Shader Lab repository.

The definitions below are shallow embeddings of the JavaScript source:
* `sanitizeShaderCode` from `public/js/shaderRenderer.js` (lines 238-254),
* the shader evaluator `evaluateShader` from `public/js/shaderEvaluator.js`
  (fragment-only version, lines 671-739),
* the auto-iteration controller `autoIterateShader` / `handleIterateClick` /
  `handleGenerateClick` from `main.js`,
* the model-selection and screenshot-attachment logic of `server.js`
  (`getModelToUse`, the `/api/iterate-shader` handler).

Strings are modelled as `List Char` where character-level scanning matters;
machine floats that only flow through the code opaquely (SSIM, FPS) are
modelled as `Rat`.
-/

namespace ShaderLab

/-! ## JavaScript string primitives -/

/-- The backtick character, written via its code point. -/
def tickChar : Char := Char.ofNat 96

/-- Code points treated as whitespace by JavaScript `String.prototype.trim`. -/
def jsWhitespaceCodes : List Nat :=
  [9, 10, 11, 12, 13, 32, 160, 0x1680, 0x2000, 0x2001, 0x2002, 0x2003, 0x2004,
   0x2005, 0x2006, 0x2007, 0x2008, 0x2009, 0x200A, 0x2028, 0x2029, 0x202F,
   0x205F, 0x3000, 0xFEFF]

/-- Whether a character is JavaScript-trim whitespace. -/
def isJsWs (c : Char) : Bool := jsWhitespaceCodes.contains c.toNat

/-- `String.prototype.trim`: drop whitespace from both ends. -/
def jsTrim (l : List Char) : List Char :=
  (l.dropWhile isJsWs).rdropWhile isJsWs

/-! ## `sanitizeShaderCode` (shaderRenderer.js lines 238-254)

```js
let cleanCode = code.replace(/```(?:glsl|cpp|c\+\+|c)?/g, '').replace(/```/g, '');
cleanCode = cleanCode.replace(/<!--[\s\S]*?-->/g, '');
cleanCode = cleanCode.trim();
```
-/

/-- Consume the optional language tag of the first fence regex
(`(?:glsl|cpp|c\+\+|c)?`, alternatives tried in order). -/
def langTagDrop (l : List Char) : List Char :=
  if l.take 4 = ['g', 'l', 's', 'l'] then l.drop 4
  else if l.take 3 = ['c', 'p', 'p'] then l.drop 3
  else if l.take 3 = ['c', '+', '+'] then l.drop 3
  else if l.take 1 = ['c'] then l.drop 1
  else l

/-- `.replace(/```(?:glsl|cpp|c\+\+|c)?/g, '')`: left-to-right scan removing
each triple backtick together with its optional language tag. -/
def stripFences : List Char → List Char
  | a :: b :: c :: rest =>
    if a = tickChar ∧ b = tickChar ∧ c = tickChar then
      stripFences (langTagDrop rest)
    else
      a :: stripFences (b :: c :: rest)
  | l => l
termination_by l => l.length
decreasing_by
  · have hd : (langTagDrop rest).length ≤ rest.length := by
      unfold langTagDrop
      repeat' split
      all_goals simp [List.length_drop]
    simp only [List.length_cons]
    omega
  · simp only [List.length_cons]
    omega

/-- `.replace(/```/g, '')`: remove remaining plain triple backticks. -/
def stripTicks : List Char → List Char
  | a :: b :: c :: rest =>
    if a = tickChar ∧ b = tickChar ∧ c = tickChar then
      stripTicks rest
    else
      a :: stripTicks (b :: c :: rest)
  | l => l

/-- Scan for the first `-->` and return what follows it, if present
(the non-greedy `[\s\S]*?-->` part of the comment regex). -/
def dropToClose : List Char → Option (List Char)
  | a :: b :: c :: rest =>
    if a = '-' ∧ b = '-' ∧ c = '>' then some rest
    else dropToClose (b :: c :: rest)
  | _ => none

/-- `.replace(/<!--[\s\S]*?-->/g, '')`: left-to-right scan; a `<!--` with a
later `-->` is removed through the earliest close, a `<!--` with no close
matches nothing (and nothing after it can match either). -/
def stripComments : List Char → List Char
  | a :: b :: c :: d :: rest =>
    if a = '<' ∧ b = '!' ∧ c = '-' ∧ d = '-' then
      match h : dropToClose rest with
      | some rest2 => stripComments rest2
      | none => a :: b :: c :: d :: rest
    else
      a :: stripComments (b :: c :: d :: rest)
  | l => l
termination_by l => l.length
decreasing_by
  · have key : ∀ l r : List Char, dropToClose l = some r → r.length ≤ l.length := by
      intro l
      induction l with
      | nil => intro r hr; simp [dropToClose] at hr
      | cons a t ih =>
        intro r hr
        cases t with
        | nil => simp [dropToClose] at hr
        | cons b t2 =>
          cases t2 with
          | nil => simp [dropToClose] at hr
          | cons c rest3 =>
            rw [dropToClose] at hr
            split at hr
            · cases hr; simp only [List.length_cons]; omega
            · have := ih r hr
              simp only [List.length_cons] at this ⊢
              omega
    have := key rest rest2 h
    simp only [List.length_cons]
    omega
  · simp only [List.length_cons]
    omega

/-- Character-level body of `sanitizeShaderCode`. -/
def sanitizeChars (l : List Char) : List Char :=
  jsTrim (stripComments (stripTicks (stripFences l)))

/-- `sanitizeShaderCode(code)` from `shaderRenderer.js`. `none` stands for a
`null`/`undefined` argument; `if (!code) return ''` also catches the empty
string (the only falsy string). -/
def sanitizeShaderCode (code : Option String) : String :=
  match code with
  | none => ""
  | some s => if s = "" then "" else ⟨sanitizeChars s.data⟩

/-! ## Shader evaluator (shaderEvaluator.js, fragment-only version)

The WebGL context is modelled as a capability interface (`GLBackend`) plus an
explicit handle-allocation state (`GLState`) so that resource usage is
observable.  Shader/program/buffer handles are numbered in creation order.
-/

/-- The two shader stage kinds (`gl.VERTEX_SHADER` / `gl.FRAGMENT_SHADER`). -/
inductive ShaderType where
  | vertex
  | fragment
deriving DecidableEq

/-- Kinds of render-backend handles created by the evaluator. -/
inductive HandleKind where
  | shader
  | program
  | buffer
deriving DecidableEq

/-- Allocation state of the render backend: next fresh handle id and the list
of currently live handles (newest first). -/
structure GLState where
  nextId : Nat
  live : List (Nat × HandleKind)
deriving DecidableEq

/-- `gl.createShader` / `gl.createProgram` / `gl.createBuffer`. -/
def glCreate (k : HandleKind) (s : GLState) : Nat × GLState :=
  (s.nextId, ⟨s.nextId + 1, (s.nextId, k) :: s.live⟩)

/-- `gl.deleteShader` / `gl.deleteProgram` / `gl.deleteBuffer`. -/
def glDelete (h : Nat) (s : GLState) : GLState :=
  ⟨s.nextId, s.live.filter (fun p => p.1 != h)⟩

/-- One RGBA pixel as read back by `gl.readPixels` (byte components). -/
structure GLPixel where
  r : Nat
  g : Nat
  b : Nat
  a : Nat
deriving DecidableEq

/-- Outcome oracle for the opaque WebGL capability: compile/link results and
logs, the measured metric values, the framebuffer readback, the error code
returned by `gl.getError()` (0 = `NO_ERROR`) and the base64 screenshot the
canvas yields at capture `i`. -/
structure GLBackend where
  compileOk : ShaderType → String → Bool
  compileLog : ShaderType → String → String
  linkOk : Bool
  linkLog : String
  ssimValue : Rat
  fpsValue : Rat
  pixels : List GLPixel
  glErrorCode : Nat
  shot : Nat → String

/-- The evaluator options object (constructor defaults of `ShaderEvaluator`). -/
structure EvalOptions where
  ssimThreshold : Rat
  maxScreenshots : Nat
  timeJitterAmount : Rat
  baseTime : Rat
deriving DecidableEq

/-- Defaults `{ssimThreshold: 0.85, maxScreenshots: 5, timeJitterAmount: 2.0,
baseTime: 0}`. -/
def defaultEvalOptions : EvalOptions :=
  ⟨(85 : Rat) / 100, 5, 2, 0⟩

/-- Result shape of `compileShader`: `{ shader, success, log }`. -/
structure CompileResult where
  shader : Nat
  success : Bool
  log : String
deriving DecidableEq

/-- `compileShader(source, type)`: creates a shader handle; on failure the
shader is deliberately kept ("Don't delete the shader - we need it for the
info log") and the info log is returned, on success the log is `''`. -/
def compileShader (b : GLBackend) (source : String) (ty : ShaderType)
    (s : GLState) : CompileResult × GLState :=
  let (h, s1) := glCreate .shader s
  if b.compileOk ty source then
    (⟨h, true, ""⟩, s1)
  else
    (⟨h, false, b.compileLog ty source⟩, s1)

/-- Result shape of `linkProgram`: `{ program, success, log }`. -/
structure LinkResult where
  program : Nat
  success : Bool
  log : String
deriving DecidableEq

/-- `linkProgram(vertexShader, fragmentShader)`: creates a program handle,
attaches and links; on failure returns the program info log. -/
def linkProgram (b : GLBackend) (s : GLState) : LinkResult × GLState :=
  let (h, s1) := glCreate .program s
  if b.linkOk then
    (⟨h, true, ""⟩, s1)
  else
    (⟨h, false, b.linkLog⟩, s1)

/-- `_drawQuad`: creates a vertex buffer, draws, and deletes the buffer. -/
def drawQuad (s : GLState) : GLState :=
  let (h, s1) := glCreate .buffer s
  glDelete h s1

/-- `renderScene`: sets uniforms (no resource effect) and draws a quad. -/
def renderScene (s : GLState) : GLState :=
  drawQuad s

/-- Render `n` successive frames (the loop of `measureFPS` /
`captureScreenshots`). -/
def renderFrames : Nat → GLState → GLState
  | 0, s => s
  | n + 1, s => renderFrames n (renderScene s)

/-- `checkForNaNs()`: true when no pixel has nonzero alpha, or when
`gl.getError()` reports a nonzero code after sampling. -/
def checkForNaNs (b : GLBackend) : Bool :=
  let hasPixels := b.pixels.any (fun p => decide (0 < p.a))
  if !hasPixels then true
  else if b.glErrorCode != 0 then true
  else false

/-- `captureScreenshots`: renders `maxScreenshots` jittered frames, capturing
the canvas after each. -/
def captureScreenshots (b : GLBackend) (maxShots : Nat) (s : GLState) :
    List String × GLState :=
  ((List.range maxShots).map b.shot, renderFrames maxShots s)

/-- `_getFixedVertexShader()`: the fixed harness vertex stage. -/
def fixedVertexShader : String :=
  "\n            attribute vec4 aPosition;\n            varying vec2 vUv;\n            \n            void main() \x7b\n                vUv = aPosition.xy * 0.5 + 0.5;\n                gl_Position = aPosition;\n            \x7d\n        "

/-- The `metrics` object of an evaluation result. -/
structure EvalMetrics where
  ssim : Rat
  fps : Rat
deriving DecidableEq

/-- The evaluation result returned by `evaluateShader`. -/
structure EvalVerdict where
  compiled : Bool
  infoLog : String
  metrics : EvalMetrics
  hasNaNs : Bool
  screenshots : List String
deriving DecidableEq

/-- The combined info log `[vertex?, fragment?].filter(Boolean).join('\n')`. -/
def combinedInfoLog (vlog flog : String) : String :=
  String.intercalate "\n"
    ((if vlog ≠ "" then ["Vertex shader: " ++ vlog] else []) ++
     (if flog ≠ "" then ["Fragment shader: " ++ flog] else []))

/-- `evaluateShader(fragmentSource)` (shaderEvaluator.js lines 671-739):
compiles the fixed vertex stage and the fragment stage, links, then renders,
computes metrics, checks for anomalies, captures screenshots and finally
deletes the program and both shaders.  Returns the verdict together with the
final allocation state. -/
def evaluateShader (b : GLBackend) (opts : EvalOptions) (fragmentSource : String)
    (s0 : GLState) : EvalVerdict × GLState :=
  let (vres, s1) := compileShader b fixedVertexShader .vertex s0
  let (fres, s2) := compileShader b fragmentSource .fragment s1
  let infoLog := combinedInfoLog vres.log fres.log
  if !vres.success || !fres.success then
    (⟨false, infoLog, ⟨0, 0⟩, false, []⟩, s2)
  else
    let (pres, s3) := linkProgram b s2
    if !pres.success then
      (⟨false, infoLog ++ "\n" ++ pres.log, ⟨0, 0⟩, false, []⟩, s3)
    else
      let s4 := renderScene s3
      let ssim := b.ssimValue
      let s5 := renderFrames 60 s4
      let fps := b.fpsValue
      let nans := checkForNaNs b
      let (shots, s6) := captureScreenshots b opts.maxScreenshots s5
      let s7 := glDelete pres.program s6
      let s8 := glDelete vres.shader s7
      let s9 := glDelete fres.shader s8
      (⟨true, infoLog, ⟨ssim, fps⟩, nans, shots⟩, s9)

/-! ## Iteration controller (main.js)

`autoIterateShader` repeatedly calls `/api/iterate` and logs
`IterationRecord`s via `logIteration`.  A backend call is abstracted to its
observable outcome: a thrown/`!ok`/empty response (`fail`) or a response whose
parsed shader does or does not compile (`ok`).
-/

/-- The observable outcome of one `/api/iterate` round trip, as consumed by
`autoIterateShader`: `fail` covers a thrown fetch, a non-ok HTTP status and an
empty `data.response`; `ok sh compiles` is a parsed replacement shader `sh`
together with the result of `setupShaderProgram(sh)`. -/
inductive IterResponse where
  | fail
  | ok (sh : String) (compiles : Bool)
deriving DecidableEq

/-- The fields of a logged iteration relevant to the history invariants. -/
structure IterationRecord where
  iteration : Nat
  fragmentShader : String
  success : Bool
  isManualIteration : Bool
  isLastAutoIteration : Bool
deriving DecidableEq

/-- `const MAX_AUTO_ITERATIONS = 3`. -/
def MAX_AUTO_ITERATIONS : Nat := 3

/-- The `while (autoIterationCount < MAX_AUTO_ITERATIONS)` loop of
`autoIterateShader`, with `fuel = MAX_AUTO_ITERATIONS - autoIterationCount`.
`resp idx` is the outcome of the `idx`-th backend call of this loop.  Returns
the `IterationRecord`s appended (in order), the final `success` flag, and the
number of backend generation attempts made.

Each loop pass first logs a pre-attempt record
(`success:false, isManualIteration:false, isLastAutoIteration:false`), then
calls the backend; on error it breaks out of the loop (the `catch` block); on
a response it advances `currentIteration` and logs a final record
(`isLastAutoIteration:true`) exactly when the new shader compiled or
`autoIterationCount + 1 === MAX_AUTO_ITERATIONS`. -/
def autoIterateLoop (resp : Nat → IterResponse) (idx cur : Nat) (sh : String) :
    Nat → List IterationRecord × Bool × Nat
  | 0 => ([], false, 0)
  | fuel + 1 =>
    let pre : IterationRecord := ⟨cur, sh, false, false, false⟩
    match resp idx with
    | .fail => ([pre], false, 1)
    | .ok newSh compiles =>
      if compiles then
        ([pre, ⟨cur + 1, newSh, true, false, true⟩], true, 1)
      else if fuel = 0 then
        ([pre, ⟨cur + 1, newSh, false, false, true⟩], false, 1)
      else
        let (rest, succ, att) := autoIterateLoop resp (idx + 1) (cur + 1) newSh fuel
        (pre :: rest, succ, att + 1)

/-- Observable outcome of the initiating `generateShader` call of
`handleGenerateClick`. -/
inductive GenerateOutcome where
  | genFail
  | genOk (sh : String) (compiles : Bool)
deriving DecidableEq

/-- One user action: clicking Generate (with the outcome of its generation
call and the backend outcomes for a subsequent auto-iteration run), or
clicking Iterate with nonempty feedback (with the current editor shader and
the backend outcomes of its run). -/
inductive UserAction where
  | generate (out : GenerateOutcome) (resp : Nat → IterResponse)
  | iterate (sh : String) (resp : Nat → IterResponse)

/-- The session-level mutable state of main.js: the module-global
`iterationCounter` and the `shaderIterationHistory` log. -/
structure SessionState where
  counter : Nat
  history : List IterationRecord
deriving DecidableEq

/-- `handleGenerateClick` / `handleIterateClick`.

Generate clears the history and resets `iterationCounter` to 0; on a
successful first compile it logs an index-0 manual record; otherwise it
increments the counter to 1 and runs `autoIterateShader(prompt, result, 1)`.
Iterate increments the global counter and runs
`autoIterateShader(prompt, code, iterationCounter, feedback)`.  Note that
`autoIterateShader`'s local `currentIteration` advances are never written
back to the global `iterationCounter`. -/
def stepAction (s : SessionState) : UserAction → SessionState
  | .generate out resp =>
    match out with
    | .genFail => ⟨0, []⟩
    | .genOk sh compiles =>
      if compiles then
        ⟨0, [⟨0, sh, true, true, false⟩]⟩
      else
        let (recs, _, _) := autoIterateLoop resp 0 1 sh MAX_AUTO_ITERATIONS
        ⟨1, recs⟩
  | .iterate sh resp =>
    let c := s.counter + 1
    let (recs, _, _) := autoIterateLoop resp 0 c sh MAX_AUTO_ITERATIONS
    ⟨c, s.history ++ recs⟩

/-- Run a sequence of user actions from the initial page state. -/
def runSession (acts : List UserAction) : SessionState :=
  acts.foldl stepAction ⟨0, []⟩

/-! ## Server model (server.js)

Environment variables are strings or absent; JavaScript truthiness of an
environment variable means "present and nonempty".
-/

/-- The environment variables consulted by model selection. -/
structure ServerEnv where
  USE_FINETUNED_MODEL : Option String
  OPENAI_MODEL_NAME : Option String
  OPENAI_BASE_MODEL : Option String

/-- JavaScript truthiness of an environment variable value. -/
def envTruthy : Option String → Bool
  | none => false
  | some s => s != ""

/-- `jsTrim` on `String`. -/
def jsTrimStr (s : String) : String := ⟨jsTrim s.data⟩

/-- `getModelToUse()` (server.js lines 11-37).  The comparison
`process.env.USE_FINETUNED_MODEL === true` can never hold for a string-valued
environment variable, so the flag reduces to the string comparison with
`'true'`. -/
def getModelToUse (e : ServerEnv) : String :=
  let useFinetuned := e.USE_FINETUNED_MODEL = some "true"
  let model :=
    if useFinetuned ∧ envTruthy e.OPENAI_MODEL_NAME then
      e.OPENAI_MODEL_NAME.getD ""
    else if envTruthy e.OPENAI_BASE_MODEL then
      e.OPENAI_BASE_MODEL.getD ""
    else
      "gpt-4.1-mini"
  if model = "" ∨ jsTrimStr model = "" then "gpt-4.1-mini" else model

/-- Model selection of the `/api/generate-shader` handler (lines 84-90):
`getModelToUse()` followed by the blank-model fallback. -/
def generateEndpointModel (e : ServerEnv) : String :=
  let m := getModelToUse e
  if m = "" ∨ jsTrimStr m = "" then "gpt-4.1-mini" else m

/-- Model selection of the `/api/iterate-shader` handler (lines 186-230 and
the fallback at lines 340-343).  `modelToUse` starts `undefined` (`none`); it
is assigned only inside `if (iteration > 0)`: `"gpt-4.1-mini"` for
auto-iterations, and for manual iterations `getModelToUse()` when
`iteration === 0` (unreachable there) else `"gpt-4.1-mini"`.  Before the API
call an `undefined` or blank `modelToUse` falls back to `"gpt-4.1-mini"`. -/
def iterateEndpointModel (e : ServerEnv) (iteration : Nat)
    (isAutoIteration : Bool) : String :=
  let modelToUse : Option String :=
    if iteration > 0 then
      if isAutoIteration then
        some "gpt-4.1-mini"
      else if iteration = 0 then
        some (getModelToUse e)
      else
        some "gpt-4.1-mini"
    else
      none
  match modelToUse with
  | none => "gpt-4.1-mini"
  | some m => if m = "" ∨ jsTrimStr m = "" then "gpt-4.1-mini" else m

/-! ### Screenshot attachment (`/api/iterate-shader` handler, lines 260-298)

A screenshot arrives as a data-URL string; the handler only looks at whether
it starts with `'data:image'` and at the length of the substring after the
first comma, so a screenshot is modelled by those two observations
(`base64Size = none` when the string has no comma, in which case
`screenshot.split(',')[1].length` throws and the `catch` continues with the
next item). -/
structure ScreenshotItem where
  isDataImage : Bool
  base64Size : Option Nat
deriving DecidableEq

/-- `const MAX_SCREENSHOTS = 1` (the comment above it says "up to 3"). -/
def MAX_SCREENSHOTS : Nat := 1

/-- The per-item cap: 1 MiB (`size < 1024 * 1024`). -/
def PER_IMAGE_BYTE_CAP : Nat := 1024 * 1024

/-- The aggregate cap: 3 MiB (`totalSize < 3 * 1024 * 1024`). -/
def AGGREGATE_BYTE_CAP : Nat := 3 * 1024 * 1024

/-- The screenshot-attachment loop.  Arguments: remaining items, remaining
loop budget (`MAX_SCREENSHOTS - i`), running `totalSize`.  Returns the sizes
of the attached items (in order) and the number of loop passes executed.

A non-`data:image` item is skipped and the loop continues; a comma-less item
throws inside the inner `try` and the loop continues; an item failing
`base64Data && size < 1 MiB && totalSize < 3 MiB` (after `totalSize += size`)
hits the `break`. -/
def attachLoop : List ScreenshotItem → Nat → Nat → List Nat × Nat
  | [], _, _ => ([], 0)
  | _, 0, _ => ([], 0)
  | item :: rest, budget + 1, total =>
    if item.isDataImage then
      match item.base64Size with
      | none =>
        let (att, n) := attachLoop rest budget total
        (att, n + 1)
      | some size =>
        let total2 := total + size
        if 0 < size ∧ size < PER_IMAGE_BYTE_CAP ∧ total2 < AGGREGATE_BYTE_CAP then
          let (att, n) := attachLoop rest budget total2
          (size :: att, n + 1)
        else
          ([], 1)
    else
      let (att, n) := attachLoop rest budget total
      (att, n + 1)

/-- `processScreenshots`: the attachment loop as started by the handler. -/
def processScreenshots (shots : List ScreenshotItem) : List Nat × Nat :=
  attachLoop shots MAX_SCREENSHOTS 0

/-! # Theorems

Helper lemmas first, then one theorem per claim (with witnesses and
counterexamples where applicable).
-/

/-! ## Sanitization lemmas -/

theorem stripTicks_eq_self_of_no_tick (l : List Char) (h : ∀ c ∈ l, c ≠ tickChar) :
    stripTicks l = l := by
  induction l using stripTicks.induct with
  | case1 a b c rest hcond ih =>
    exact absurd hcond.1 (h a (by simp))
  | case2 a b c rest hcond ih =>
    rw [stripTicks]
    simp only [if_neg hcond]
    rw [ih]
    intro x hx
    exact h x (by simp at hx ⊢; tauto)
  | case3 l hshape =>
    cases l with
    | nil => rfl
    | cons a t =>
      cases t with
      | nil => rfl
      | cons b t2 =>
        cases t2 with
        | nil => rfl
        | cons c rest => exact ((by simpa using hshape a b c rest) : False).elim

theorem stripFences_eq_self_of_no_tick (l : List Char) (h : ∀ c ∈ l, c ≠ tickChar) :
    stripFences l = l := by
  induction l using stripFences.induct with
  | case1 a b c rest hcond ih =>
    exact absurd hcond.1 (h a (by simp))
  | case2 a b c rest hcond ih =>
    rw [stripFences]
    simp only [if_neg hcond]
    rw [ih]
    intro x hx
    exact h x (by simp at hx ⊢; tauto)
  | case3 l hshape =>
    cases l with
    | nil => simp [stripFences]
    | cons a t =>
      cases t with
      | nil => simp [stripFences]
      | cons b t2 =>
        cases t2 with
        | nil => simp [stripFences]
        | cons c rest => exact ((by simpa using hshape a b c rest) : False).elim

theorem stripComments_eq_self_of_no_lt (l : List Char) (h : ∀ c ∈ l, c ≠ '<') :
    stripComments l = l := by
  induction l using stripComments.induct with
  | case1 a b c d rest hcond rest2 heq ih =>
    exact absurd hcond.1 (h a (by simp))
  | case2 a b c d rest hcond heq =>
    rw [stripComments]
    simp only [if_pos hcond]
    split
    · simp_all
    · rfl
  | case3 a b c d rest hcond ih =>
    rw [stripComments]
    simp only [if_neg hcond]
    rw [ih]
    intro x hx
    exact h x (by simp at hx ⊢; tauto)
  | case4 l hshape =>
    cases l with
    | nil => simp [stripComments]
    | cons a t =>
      cases t with
      | nil => simp [stripComments]
      | cons b t2 =>
        cases t2 with
        | nil => simp [stripComments]
        | cons c t3 =>
          cases t3 with
          | nil => simp [stripComments]
          | cons d rest => exact ((by simpa using hshape a b c d rest) : False).elim

theorem dropWhile_eq_self_of_isPrefix {α : Type} {p : α → Bool} {l₁ l₂ : List α}
    (hp : l₂ <+: l₁) (h : l₁.dropWhile p = l₁) : l₂.dropWhile p = l₂ := by
  cases l₂ with
  | nil => simp
  | cons a u =>
    obtain ⟨t, ht⟩ := hp
    have hpa : ¬ p a := by
      intro hpa
      rw [← ht, List.cons_append, List.dropWhile_cons_of_pos hpa] at h
      have hlen := congrArg List.length h
      have hle := (List.dropWhile_suffix (l := u ++ t) p).sublist.length_le
      simp only [List.length_cons] at hlen
      omega
    simp [List.dropWhile_cons_of_neg hpa]

theorem jsTrim_front_fix (l : List Char) :
    (jsTrim l).dropWhile isJsWs = jsTrim l := by
  unfold jsTrim
  exact dropWhile_eq_self_of_isPrefix ( List.rdropWhile_prefix _ _)
    (List.dropWhile_idempotent _ _)

theorem jsTrim_back_fix (l : List Char) :
    (jsTrim l).rdropWhile isJsWs = jsTrim l := by
  unfold jsTrim
  exact List.rdropWhile_idempotent _ _

theorem jsTrim_idempotent (l : List Char) : jsTrim (jsTrim l) = jsTrim l := by
  conv_lhs => rw [jsTrim.eq_def]
  rw [jsTrim_front_fix, jsTrim_back_fix]

theorem sanitizeChars_idem_of_no_delims (t : List Char)
    (h : ∀ c ∈ sanitizeChars t, c ≠ tickChar ∧ c ≠ '<') :
    sanitizeChars (sanitizeChars t) = sanitizeChars t := by
  have htick : ∀ c ∈ sanitizeChars t, c ≠ tickChar := fun c hc => (h c hc).1
  have hlt : ∀ c ∈ sanitizeChars t, c ≠ '<' := fun c hc => (h c hc).2
  conv_lhs => rw [sanitizeChars.eq_def]
  rw [stripFences_eq_self_of_no_tick _ htick, stripTicks_eq_self_of_no_tick _ htick,
    stripComments_eq_self_of_no_lt _ hlt]
  show jsTrim (sanitizeChars t) = sanitizeChars t
  unfold sanitizeChars
  exact jsTrim_idempotent _

/-! ## Claim C4 -/

/-- C4 counterexample: `sanitizeShaderCode` is NOT idempotent.  On the input
consisting of backtick, backtick, `<!---->`, backtick, the first application
strips the HTML comment and thereby joins the surrounding backticks into a
new ``` fence, which a second application then removes: sanitize once gives
the three-backtick string, sanitize twice gives the empty string. -/
theorem C4_counterexample :
    sanitizeShaderCode (some (sanitizeShaderCode (some "``<!---->`"))) ≠
      sanitizeShaderCode (some "``<!---->`") := by
  have h1 : sanitizeShaderCode (some "``<!---->`") = "```" := by
    simp only [sanitizeShaderCode, sanitizeChars, String.data]
    simp [stripFences, stripTicks, stripComments, dropToClose, langTagDrop, tickChar]
    all_goals decide
  rw [h1]
  have h2 : sanitizeShaderCode (some "```") = "" := by
    simp only [sanitizeShaderCode, sanitizeChars, String.data]
    simp [stripFences, stripTicks, stripComments, dropToClose, langTagDrop, tickChar]
    all_goals decide
  rw [h2]
  decide

/-- C4 (amended): `sanitizeShaderCode` is idempotent on every input whose
sanitized form contains no backtick and no `<` character (stripping can
otherwise create a new fence or comment delimiter, as the counterexample
shows). -/
theorem C4_sanitize_idempotent_of_no_delims (s : String)
    (h : ∀ c ∈ (sanitizeShaderCode (some s)).data, c ≠ tickChar ∧ c ≠ '<') :
    sanitizeShaderCode (some (sanitizeShaderCode (some s))) =
      sanitizeShaderCode (some s) := by
  by_cases hs : s = ""
  · subst hs; rfl
  · have hdata : sanitizeShaderCode (some s) = ⟨sanitizeChars s.data⟩ := by
      simp [sanitizeShaderCode, hs]
    by_cases hempty : sanitizeShaderCode (some s) = ""
    · rw [hempty]; rfl
    · rw [hdata] at hempty h ⊢
      simp only [sanitizeShaderCode, if_neg hempty]
      show (⟨sanitizeChars (sanitizeChars s.data)⟩ : String) = ⟨sanitizeChars s.data⟩
      rw [sanitizeChars_idem_of_no_delims]
      exact fun c hc => h c hc

/-- C4 witness: idempotence at a delimiter-free concrete input. -/
theorem C4_witness :
    sanitizeShaderCode (some (sanitizeShaderCode (some "void main"))) =
      sanitizeShaderCode (some "void main") := by
  apply C4_sanitize_idempotent_of_no_delims
  have h1 : sanitizeShaderCode (some "void main") = "void main" := by
    simp only [sanitizeShaderCode, sanitizeChars, String.data]
    simp [stripFences, stripTicks, stripComments, dropToClose, langTagDrop, tickChar]
    all_goals decide
  rw [h1]
  decide

/-! ## Claim C10 -/

/-- C10: `sanitizeShaderCode` is total at its public interface (it is a total
function of `Option String`, so it returns a string without throwing for
every input including `null`/`undefined` = `none`); on `none` and on the
empty string it returns the empty string; and its result never has leading
or trailing JavaScript whitespace (it is a fixed point of both `dropWhile`
and `rdropWhile` on `isJsWs`). -/
theorem C10_sanitize_total_and_trimmed :
    sanitizeShaderCode none = "" ∧
    sanitizeShaderCode (some "") = "" ∧
    ∀ x : Option String,
      (sanitizeShaderCode x).data.dropWhile isJsWs = (sanitizeShaderCode x).data ∧
      (sanitizeShaderCode x).data.rdropWhile isJsWs = (sanitizeShaderCode x).data := by
  refine ⟨rfl, rfl, ?_⟩
  intro x
  match x with
  | none => exact ⟨rfl, rfl⟩
  | some s =>
    by_cases hs : s = ""
    · subst hs; exact ⟨rfl, rfl⟩
    · have hdata : sanitizeShaderCode (some s) = ⟨sanitizeChars s.data⟩ := by
        simp [sanitizeShaderCode, hs]
      rw [hdata]
      show (sanitizeChars s.data).dropWhile isJsWs = sanitizeChars s.data ∧
        (sanitizeChars s.data).rdropWhile isJsWs = sanitizeChars s.data
      unfold sanitizeChars
      exact ⟨jsTrim_front_fix _, jsTrim_back_fix _⟩

/-! ## Evaluator state lemmas -/

theorem filter_ne_of_ub {l : List (Nat × HandleKind)} {n m : Nat}
    (h : ∀ p ∈ l, p.1 < n) (hm : n ≤ m) :
    l.filter (fun p => p.1 != m) = l := by
  apply List.filter_eq_self.mpr
  intro p hp
  have := h p hp
  simp only [bne_iff_ne, ne_eq, decide_eq_true_eq]
  omega

theorem drawQuad_state (s : GLState) (h : ∀ p ∈ s.live, p.1 < s.nextId) :
    (drawQuad s).live = s.live ∧ (drawQuad s).nextId = s.nextId + 1 := by
  refine ⟨?_, rfl⟩
  show ((s.nextId, HandleKind.buffer) :: s.live).filter (fun p => p.1 != s.nextId) = s.live
  rw [List.filter_cons]
  simp only [bne_self_eq_false, Bool.false_eq_true, if_false]
  exact filter_ne_of_ub h le_rfl

theorem renderFrames_state :
    ∀ (n : Nat) (s : GLState), (∀ p ∈ s.live, p.1 < s.nextId) →
      (renderFrames n s).live = s.live ∧ s.nextId ≤ (renderFrames n s).nextId ∧
        (∀ p ∈ (renderFrames n s).live, p.1 < (renderFrames n s).nextId) := by
  intro n
  induction n with
  | zero => exact fun s h => ⟨rfl, le_rfl, h⟩
  | succ k ih =>
    intro s h
    have hd := drawQuad_state s h
    have h2 : ∀ p ∈ (renderScene s).live, p.1 < (renderScene s).nextId := by
      intro p hp
      rw [show (renderScene s).live = s.live from hd.1] at hp
      rw [show (renderScene s).nextId = s.nextId + 1 from hd.2]
      exact Nat.lt_succ_of_lt (h p hp)
    obtain ⟨e1, e2, e3⟩ := ih (renderScene s) h2
    refine ⟨?_, ?_, e3⟩
    · show (renderFrames k (renderScene s)).live = s.live
      rw [e1, show (renderScene s).live = s.live from hd.1]
    · show s.nextId ≤ (renderFrames k (renderScene s)).nextId
      have : s.nextId ≤ (renderScene s).nextId := by
        rw [show (renderScene s).nextId = s.nextId + 1 from hd.2]; omega
      omega

/-! ## Claim C1 -/

/-- C1: every verdict returned by `evaluateShader` with `compiled = false`
has zeroed metrics (`ssim = 0`, `fps = 0`) and an empty screenshot list. -/
theorem C1_uncompiled_verdict_zeroed (b : GLBackend) (opts : EvalOptions)
    (src : String) (s0 : GLState)
    (h : (evaluateShader b opts src s0).1.compiled = false) :
    (evaluateShader b opts src s0).1.metrics = ⟨0, 0⟩ ∧
    (evaluateShader b opts src s0).1.screenshots = [] := by
  rcases hv : b.compileOk .vertex fixedVertexShader <;>
    rcases hf : b.compileOk .fragment src <;>
      rcases hl : b.linkOk <;>
        simp [evaluateShader, compileShader, linkProgram, glCreate, hv, hf, hl] at h ⊢

/-- C1 witness: a backend whose fragment compile fails yields
`compiled = false` together with zeroed metrics and no screenshots. -/
theorem C1_witness :
    (evaluateShader
      ⟨fun _ _ => false, fun _ _ => "syntax error", true, "", 1 / 2, 30, [], 0,
        fun _ => "img"⟩
      defaultEvalOptions "bad shader" ⟨0, []⟩).1.metrics = ⟨0, 0⟩ ∧
    (evaluateShader
      ⟨fun _ _ => false, fun _ _ => "syntax error", true, "", 1 / 2, 30, [], 0,
        fun _ => "img"⟩
      defaultEvalOptions "bad shader" ⟨0, []⟩).1.screenshots = [] :=
  C1_uncompiled_verdict_zeroed _ defaultEvalOptions "bad shader" ⟨0, []⟩ rfl

/-! ## Claim C5 -/

/-- C5 counterexample: with both stages compiling and the link failing,
`evaluateShader` returns `compiled = false`, not the claimed
`compiled = true` (and its verdict has no `linked` field at all). -/
theorem C5_counterexample :
    (GLBackend.mk (fun _ _ => true) (fun _ _ => "") false "link error" (1 / 2) 30
        [⟨1, 2, 3, 255⟩] 0 (fun _ => "img")).linkOk = false ∧
    (evaluateShader
      ⟨fun _ _ => true, fun _ _ => "", false, "link error", 1 / 2, 30,
        [⟨1, 2, 3, 255⟩], 0, fun _ => "img"⟩
      defaultEvalOptions "frag" ⟨0, []⟩).1.compiled = false :=
  ⟨rfl, rfl⟩

/-- C5 (amended): when both stages compile and the link fails,
`evaluateShader` short-circuits with `compiled = false` (the verdict carries
no `linked` field), zeroed metrics, no screenshots, and an info log that is
the newline-joined compile logs (empty here) followed by the link
diagnostic. -/
theorem C5_link_failure_shortcircuit (b : GLBackend) (opts : EvalOptions)
    (src : String) (s0 : GLState)
    (hv : b.compileOk .vertex fixedVertexShader = true)
    (hf : b.compileOk .fragment src = true)
    (hl : b.linkOk = false) :
    (evaluateShader b opts src s0).1.compiled = false ∧
    (evaluateShader b opts src s0).1.infoLog = "\n" ++ b.linkLog ∧
    (evaluateShader b opts src s0).1.metrics = ⟨0, 0⟩ ∧
    (evaluateShader b opts src s0).1.screenshots = [] := by
  simp [evaluateShader, compileShader, linkProgram, glCreate, combinedInfoLog, hv, hf, hl]
  rw [show ("\n".intercalate [] ++ "\n" : String) = "\n" from rfl]

/-- C5 witness: the amended short-circuit at a concrete link-failing
backend. -/
theorem C5_witness :
    (evaluateShader
      ⟨fun _ _ => true, fun _ _ => "", false, "attrib mismatch", 1 / 2, 30,
        [⟨1, 2, 3, 255⟩], 0, fun _ => "img"⟩
      defaultEvalOptions "frag2" ⟨0, []⟩).1.compiled = false ∧
    (evaluateShader
      ⟨fun _ _ => true, fun _ _ => "", false, "attrib mismatch", 1 / 2, 30,
        [⟨1, 2, 3, 255⟩], 0, fun _ => "img"⟩
      defaultEvalOptions "frag2" ⟨0, []⟩).1.infoLog = "\n" ++ "attrib mismatch" ∧
    (evaluateShader
      ⟨fun _ _ => true, fun _ _ => "", false, "attrib mismatch", 1 / 2, 30,
        [⟨1, 2, 3, 255⟩], 0, fun _ => "img"⟩
      defaultEvalOptions "frag2" ⟨0, []⟩).1.metrics = ⟨0, 0⟩ ∧
    (evaluateShader
      ⟨fun _ _ => true, fun _ _ => "", false, "attrib mismatch", 1 / 2, 30,
        [⟨1, 2, 3, 255⟩], 0, fun _ => "img"⟩
      defaultEvalOptions "frag2" ⟨0, []⟩).1.screenshots = [] :=
  C5_link_failure_shortcircuit _ defaultEvalOptions "frag2" ⟨0, []⟩ rfl rfl rfl

/-! ## Claim C9 -/

/-- C9 counterexample: a backend whose fragment stage fails to compile while
the rendered output would be provably degenerate (`checkForNaNs` would
return `true`: no pixel has nonzero alpha) still yields `hasNaNs = false`,
because the compile-failure path hard-codes `hasNaNs: false`; the flag is
not independent of `compiled` and can never be set when `compiled = false`. -/
theorem C9_counterexample :
    checkForNaNs
      ⟨fun ty _ => match ty with | .vertex => true | .fragment => false,
        fun _ _ => "frag error", true, "", 1 / 2, 30, [⟨0, 0, 0, 0⟩], 0,
        fun _ => "img"⟩ = true ∧
    (evaluateShader
      ⟨fun ty _ => match ty with | .vertex => true | .fragment => false,
        fun _ _ => "frag error", true, "", 1 / 2, 30, [⟨0, 0, 0, 0⟩], 0,
        fun _ => "img"⟩
      defaultEvalOptions "bad" ⟨0, []⟩).1.compiled = false ∧
    (evaluateShader
      ⟨fun ty _ => match ty with | .vertex => true | .fragment => false,
        fun _ _ => "frag error", true, "", 1 / 2, 30, [⟨0, 0, 0, 0⟩], 0,
        fun _ => "img"⟩
      defaultEvalOptions "bad" ⟨0, []⟩).1.hasNaNs = false :=
  ⟨rfl, rfl, rfl⟩

/-- C9 (amended): `hasNaNs` is set iff the artifact compiled AND linked AND
the sampled output is degenerate (`checkForNaNs`), and `checkForNaNs` holds
iff no pixel has nonzero alpha or the backend reports a nonzero error code;
in particular the flag is never set when compilation or linking failed. -/
theorem C9_anomaly_requires_compile (b : GLBackend) (opts : EvalOptions)
    (src : String) (s0 : GLState) :
    ((evaluateShader b opts src s0).1.hasNaNs = true ↔
      (b.compileOk .vertex fixedVertexShader = true ∧
        b.compileOk .fragment src = true ∧ b.linkOk = true ∧
        checkForNaNs b = true)) ∧
    (checkForNaNs b = true ↔
      (b.pixels.any (fun p => decide (0 < p.a)) = false ∨ b.glErrorCode ≠ 0)) := by
  constructor
  · rcases hv : b.compileOk .vertex fixedVertexShader <;>
      rcases hf : b.compileOk .fragment src <;>
        rcases hl : b.linkOk <;>
          simp [evaluateShader, compileShader, linkProgram, glCreate, hv, hf, hl]
  · unfold checkForNaNs
    rcases hp : b.pixels.any (fun p => decide (0 < p.a)) <;> simp [hp, bne_iff_ne]

/-! ## Claim C6 -/

/-- C6 counterexample: after an evaluation whose fragment stage fails to
compile, the two shader handles created by `compileShader` are still
allocated (nothing is deleted on the early-return path), so handles created
during the evaluation remain live after the call returns. -/
theorem C6_counterexample :
    (evaluateShader
      ⟨fun _ _ => false, fun _ _ => "syntax error", true, "", 1 / 2, 30, [], 0,
        fun _ => "img"⟩
      defaultEvalOptions "bad frag" ⟨0, []⟩).2.live =
      [(1, HandleKind.shader), (0, HandleKind.shader)] ∧
    (evaluateShader
      ⟨fun _ _ => false, fun _ _ => "syntax error", true, "", 1 / 2, 30, [], 0,
        fun _ => "img"⟩
      defaultEvalOptions "bad frag" ⟨0, []⟩).2.live ≠ [] :=
  ⟨rfl, by decide⟩

/-- C6 (amended): starting from any well-formed allocation state, the
success path of `evaluateShader` releases every handle it creates (the final
live-handle list equals the initial one); the compile-failure path leaves
the two created shader handles allocated, and the link-failure path leaves
the two shaders and the program allocated. -/
theorem C6_release_on_success_leak_on_failure (b : GLBackend)
    (opts : EvalOptions) (src : String) (s0 : GLState)
    (hwf : ∀ p ∈ s0.live, p.1 < s0.nextId) :
    ((evaluateShader b opts src s0).1.compiled = true →
      (evaluateShader b opts src s0).2.live = s0.live) ∧
    ((b.compileOk .vertex fixedVertexShader = false ∨
        b.compileOk .fragment src = false) →
      (evaluateShader b opts src s0).2.live =
        (s0.nextId + 1, HandleKind.shader) :: (s0.nextId, HandleKind.shader) ::
          s0.live) ∧
    (b.compileOk .vertex fixedVertexShader = true →
      b.compileOk .fragment src = true → b.linkOk = false →
      (evaluateShader b opts src s0).2.live =
        (s0.nextId + 2, HandleKind.program) :: (s0.nextId + 1, HandleKind.shader) ::
          (s0.nextId, HandleKind.shader) :: s0.live) := by
  refine ⟨?_, ?_, ?_⟩
  · intro hcomp
    rcases hv : b.compileOk .vertex fixedVertexShader with _ | _
    · simp [evaluateShader, compileShader, linkProgram, glCreate, hv] at hcomp
    rcases hf : b.compileOk .fragment src with _ | _
    · simp [evaluateShader, compileShader, linkProgram, glCreate, hv, hf] at hcomp
    rcases hl : b.linkOk with _ | _
    · simp [evaluateShader, compileShader, linkProgram, glCreate, hv, hf, hl] at hcomp
    simp only [evaluateShader, compileShader, linkProgram, glCreate, hv, hf, hl,
      captureScreenshots, if_true, ite_true]
    simp only [Bool.not_true, Bool.or_self, Bool.false_eq_true, if_false]
    set n := s0.nextId with hn
    have hwf3 : ∀ p ∈ (GLState.mk (n + 1 + 1 + 1)
        ((n + 1 + 1, HandleKind.program) :: (n + 1, HandleKind.shader) ::
          (n, HandleKind.shader) :: s0.live)).live,
        p.1 < (GLState.mk (n + 1 + 1 + 1)
        ((n + 1 + 1, HandleKind.program) :: (n + 1, HandleKind.shader) ::
          (n, HandleKind.shader) :: s0.live)).nextId := by
      intro p hp
      simp only [List.mem_cons] at hp
      rcases hp with rfl | rfl | rfl | hp
      · show n + 1 + 1 < n + 1 + 1 + 1; omega
      · show n + 1 < n + 1 + 1 + 1; omega
      · show n < n + 1 + 1 + 1; omega
      · show p.1 < n + 1 + 1 + 1
        have := hwf p hp
        omega
    set s3 : GLState := GLState.mk (n + 1 + 1 + 1)
        ((n + 1 + 1, HandleKind.program) :: (n + 1, HandleKind.shader) ::
          (n, HandleKind.shader) :: s0.live) with hs3
    have hd := drawQuad_state s3 hwf3
    have hwfR : ∀ p ∈ (renderScene s3).live, p.1 < (renderScene s3).nextId := by
      intro p hp
      rw [show (renderScene s3).live = s3.live from hd.1] at hp
      rw [show (renderScene s3).nextId = s3.nextId + 1 from hd.2]
      exact Nat.lt_succ_of_lt (hwf3 p hp)
    obtain ⟨f1, _, f3⟩ := renderFrames_state 60 (renderScene s3) hwfR
    obtain ⟨g1, _, _⟩ :=
      renderFrames_state opts.maxScreenshots (renderFrames 60 (renderScene s3)) f3
    show (glDelete (n + 1) (glDelete n (glDelete (n + 1 + 1)
      (renderFrames opts.maxScreenshots
        (renderFrames 60 (renderScene s3)))))).live = s0.live
    have hlive : (renderFrames opts.maxScreenshots
        (renderFrames 60 (renderScene s3))).live = s3.live := by
      rw [g1, f1]
      exact hd.1
    have t1 : ((n + 1 : Nat) != n + 1 + 1) = true := by
      simp only [ne_eq, bne_iff_ne]; omega
    have t2 : ((n : Nat) != n + 1 + 1) = true := by
      simp only [ne_eq, bne_iff_ne]; omega
    have t3 : ((n + 1 : Nat) != n) = true := by
      simp only [ne_eq, bne_iff_ne]; omega
    have e1 : s3.live.filter (fun p => p.1 != (n + 1 + 1)) =
        (n + 1, HandleKind.shader) :: (n, HandleKind.shader) :: s0.live := by
      simp only [hs3]
      rw [List.filter_cons, List.filter_cons, List.filter_cons,
        filter_ne_of_ub hwf (by omega)]
      simp [t1, t2]
    have e2 : ((n + 1, HandleKind.shader) :: (n, HandleKind.shader) :: s0.live).filter
        (fun p => p.1 != n) = (n + 1, HandleKind.shader) :: s0.live := by
      rw [List.filter_cons, List.filter_cons, filter_ne_of_ub hwf (by omega)]
      simp [t3]
    have e3 : ((n + 1, HandleKind.shader) :: s0.live).filter
        (fun p => p.1 != (n + 1)) = s0.live := by
      rw [List.filter_cons, filter_ne_of_ub hwf (by omega)]
      simp
    simp only [glDelete, hlive]
    rw [e1, e2, e3]
  · intro hor
    rcases hor with h | h
    · rcases hf : b.compileOk .fragment src with _ | _ <;>
        simp [evaluateShader, compileShader, linkProgram, glCreate, h, hf]
    · rcases hv : b.compileOk .vertex fixedVertexShader with _ | _ <;>
        simp [evaluateShader, compileShader, linkProgram, glCreate, h, hv]
  · intro hv hf hl
    simp [evaluateShader, compileShader, linkProgram, glCreate, hv, hf, hl]

/-- C6 witness: on a concrete all-succeeding backend (from the empty
allocation state) the evaluation returns with no live handles. -/
theorem C6_witness :
    (evaluateShader
      ⟨fun _ _ => true, fun _ _ => "", true, "", 1 / 2, 30, [⟨1, 2, 3, 255⟩], 0,
        fun _ => "img"⟩
      defaultEvalOptions "good frag" ⟨0, []⟩).2.live = [] := by
  have h := C6_release_on_success_leak_on_failure
    ⟨fun _ _ => true, fun _ _ => "", true, "", 1 / 2, 30, [⟨1, 2, 3, 255⟩], 0,
      fun _ => "img"⟩
    defaultEvalOptions "good frag" ⟨0, []⟩ (by simp)
  exact h.1 rfl

/-! ## Controller loop lemmas -/

theorem getLast?_cons_of_ne_nil {α : Type} (a : α) {l : List α} (h : l ≠ []) :
    (a :: l).getLast? = l.getLast? := by
  cases l with
  | nil => exact absurd rfl h
  | cons b t => exact List.getLast?_cons_cons

theorem autoIterateLoop_attempts_le (resp : Nat → IterResponse) :
    ∀ (fuel idx cur : Nat) (sh : String),
      (autoIterateLoop resp idx cur sh fuel).2.2 ≤ fuel := by
  intro fuel
  induction fuel with
  | zero => intro idx cur sh; simp [autoIterateLoop]
  | succ f ih =>
    intro idx cur sh
    rw [autoIterateLoop]
    cases hr : resp idx with
    | fail => simp
    | ok newSh compiles =>
      cases compiles with
      | true => simp
      | false =>
        by_cases hf : f = 0
        · simp [hf]
        · simp only [Bool.false_eq_true, if_false, if_neg hf, ite_false]
          exact Nat.add_le_add_right (ih (idx + 1) (cur + 1) newSh) 1

theorem autoIterateLoop_last_tag (resp : Nat → IterResponse)
    (hok : ∀ j, resp j ≠ .fail) :
    ∀ (fuel idx cur : Nat) (sh : String), 0 < fuel →
      ((autoIterateLoop resp idx cur sh fuel).1.getLast?.map
        (fun r => r.isLastAutoIteration)) = some true := by
  intro fuel
  induction fuel with
  | zero => intro idx cur sh h; omega
  | succ f ih =>
    intro idx cur sh _
    rw [autoIterateLoop]
    cases hr : resp idx with
    | fail => exact absurd hr (hok idx)
    | ok newSh compiles =>
      cases compiles with
      | true => simp
      | false =>
        by_cases hf : f = 0
        · simp [hf]
        · have hrec := ih (idx + 1) (cur + 1) newSh (by omega)
          have hne : (autoIterateLoop resp (idx + 1) (cur + 1) newSh f).1 ≠ [] := by
            intro hnil
            rw [hnil] at hrec
            simp at hrec
          simp only [Bool.false_eq_true, if_false, if_neg hf, ite_false]
          rw [getLast?_cons_of_ne_nil _ hne]
          exact hrec

/-! ## Claim C2 -/

/-- C2 counterexample: when the very first backend call of the automatic
loop fails (thrown fetch / non-ok status / empty response), the `catch`
block breaks out of the loop without logging a final record, so the last
appended record is the pre-attempt one with
`isLastAutoIteration = false` — not tagged as the final auto-iteration. -/
theorem C2_counterexample :
    ((autoIterateLoop (fun _ => .fail) 0 1 "s" MAX_AUTO_ITERATIONS).1.getLast?.map
      (fun r => r.isLastAutoIteration)) = some false ∧
    (autoIterateLoop (fun _ => .fail) 0 1 "s" MAX_AUTO_ITERATIONS).1.length = 1 := by
  constructor <;> rfl

/-- C2 (amended): for every sequence of backend responses the automatic
loop makes at most `MAX_AUTO_ITERATIONS` backend generation attempts
(hence at most `maxAutoIterations + 1` attempts counting the initiating
generation call) and terminates; and provided no attempted backend call
fails, the last appended `IterationRecord` carries
`isLastAutoIteration = true` (after a failed call the loop instead breaks
with the pre-attempt record, tagged `false`, last). -/
theorem C2_loop_bounded_and_final_tagged (resp : Nat → IterResponse)
    (idx cur : Nat) (sh : String) (hok : ∀ j, resp j ≠ .fail) :
    (autoIterateLoop resp idx cur sh MAX_AUTO_ITERATIONS).2.2 ≤ MAX_AUTO_ITERATIONS ∧
    ((autoIterateLoop resp idx cur sh MAX_AUTO_ITERATIONS).1.getLast?.map
      (fun r => r.isLastAutoIteration)) = some true :=
  ⟨autoIterateLoop_attempts_le resp MAX_AUTO_ITERATIONS idx cur sh,
   autoIterateLoop_last_tag resp hok MAX_AUTO_ITERATIONS idx cur sh (by decide)⟩

/-- C2 witness: a backend that always answers with a non-compiling shader
exhausts the loop, within budget and with the final record tagged. -/
theorem C2_witness :
    (autoIterateLoop (fun _ => .ok "s" false) 0 1 "x" MAX_AUTO_ITERATIONS).2.2 ≤
      MAX_AUTO_ITERATIONS ∧
    ((autoIterateLoop (fun _ => .ok "s" false) 0 1 "x"
        MAX_AUTO_ITERATIONS).1.getLast?.map
      (fun r => r.isLastAutoIteration)) = some true :=
  C2_loop_bounded_and_final_tagged (fun _ => .ok "s" false) 0 1 "x" (by intro j; simp)

/-! ## Claim C8 -/

/-- C8: duplicate iteration indices within one session.  `autoIterateShader`
advances only its local `currentIteration`; the advance is never written
back to the module-global `iterationCounter` (the value `data.iteration`
received from the server is bound to `newIterationCounter` and then unused),
so `handleIterateClick`'s `iterationCounter++` reuses indices already
logged.  Session: Generate succeeds (record 0), first Iterate with an
immediately-compiling response (records 1 and 2), second Iterate likewise
(records 2 and 3): the history indices are `[0, 1, 2, 2, 3]`, which contains
a duplicate and is not strictly increasing. -/
theorem C8_duplicate_index_exhibit :
    ((runSession [.generate (.genOk "s0" true) (fun _ => .ok "t" true),
        .iterate "s1" (fun _ => .ok "t1" true),
        .iterate "s2" (fun _ => .ok "t2" true)]).history.map
      (fun r => r.iteration)) = [0, 1, 2, 2, 3] ∧
    ¬ ((runSession [.generate (.genOk "s0" true) (fun _ => .ok "t" true),
        .iterate "s1" (fun _ => .ok "t1" true),
        .iterate "s2" (fun _ => .ok "t2" true)]).history.map
      (fun r => r.iteration)).Nodup := by
  refine ⟨rfl, ?_⟩
  show ¬ ([0, 1, 2, 2, 3] : List Nat).Nodup
  decide

/-! ## Claim C3 -/

/-- C3: with the specialized (fine-tuned) model configured and enabled,
the first-generation endpoint does select it, but the iterate endpoint
selects the default `"gpt-4.1-mini"` even for the first manual iteration —
indeed for every iteration request whatsoever: the `iteration === 0` branch
that would call `getModelToUse()` sits inside `if (iteration > 0)` and is
unreachable, so `iterateEndpointModel` is constantly `"gpt-4.1-mini"`,
contradicting the code's own comment ("Only use finetuned model for initial
generation and first manual iteration"). -/
theorem C3_first_manual_iteration_never_specialized :
    getModelToUse ⟨some "true", some "ft-1", none⟩ = "ft-1" ∧
    generateEndpointModel ⟨some "true", some "ft-1", none⟩ = "ft-1" ∧
    iterateEndpointModel ⟨some "true", some "ft-1", none⟩ 1 false = "gpt-4.1-mini" ∧
    ∀ (e : ServerEnv) (it : Nat) (auto : Bool),
      iterateEndpointModel e it auto = "gpt-4.1-mini" := by
  refine ⟨by decide, by decide, by decide, ?_⟩
  intro e it auto
  match it with
  | 0 => rfl
  | n + 1 =>
    cases auto with
    | true =>
      simp only [iterateEndpointModel, gt_iff_lt, Nat.succ_pos, if_true, ite_true]
      decide
    | false =>
      simp only [iterateEndpointModel, gt_iff_lt, Nat.succ_pos, if_true, ite_true,
        Nat.succ_ne_zero, if_false, ite_false]
      decide

/-! ## Claim C7 -/

/-- C7 counterexample: with screenshots of 1.5 MiB and 0.5 MiB of base64
data, the attachment loop rejects the first item (per-item cap 1 MiB) and
then executes the `break`: only one loop pass runs, nothing is attached, and
the second item is never attempted — even though, had it been attempted, it
would have fit (second conjunct). -/
theorem C7_counterexample :
    processScreenshots [⟨true, some 1572864⟩, ⟨true, some 524288⟩] = ([], 1) ∧
    processScreenshots [⟨true, some 524288⟩] = ([524288], 1) := by
  constructor <;> decide

/-- C7 (amended): an item whose base64 size reaches the per-item cap is
silently skipped (the handler returns normally, attaching nothing), but the
loop then stops — the next item is not attempted; independently, at most
`MAX_SCREENSHOTS = 1` loop passes ever run for any screenshot list. -/
theorem C7_oversize_item_stops_loop (s : ScreenshotItem)
    (rest : List ScreenshotItem) (n : Nat)
    (himg : s.isDataImage = true) (hsize : s.base64Size = some n)
    (hbig : PER_IMAGE_BYTE_CAP ≤ n) :
    processScreenshots (s :: rest) = ([], 1) ∧
    ∀ shots : List ScreenshotItem,
      (processScreenshots shots).2 ≤ MAX_SCREENSHOTS := by
  have hz : ∀ (l : List ScreenshotItem) (t : Nat), attachLoop l 0 t = ([], 0) := by
    intro l t
    cases l <;> rfl
  constructor
  · show attachLoop (s :: rest) MAX_SCREENSHOTS 0 = ([], 1)
    rw [show MAX_SCREENSHOTS = 0 + 1 from rfl, attachLoop, himg, hsize]
    simp only [if_true]
    rw [if_neg]
    rintro ⟨h1, h2, h3⟩
    omega
  · intro shots
    cases shots with
    | nil => decide
    | cons x xs =>
      show (attachLoop (x :: xs) MAX_SCREENSHOTS 0).2 ≤ MAX_SCREENSHOTS
      rw [show MAX_SCREENSHOTS = 0 + 1 from rfl]
      obtain ⟨hi, hs⟩ := x
      cases hi <;> cases hs <;> simp [attachLoop, hz] <;> split <;> simp [hz]

/-- C7 witness: the amended behaviour at a 2 MiB first item followed by a
small item. -/
theorem C7_witness :
    processScreenshots [⟨true, some 2097152⟩, ⟨true, some 100⟩] = ([], 1) ∧
    ∀ shots : List ScreenshotItem,
      (processScreenshots shots).2 ≤ MAX_SCREENSHOTS :=
  C7_oversize_item_stops_loop ⟨true, some 2097152⟩ [⟨true, some 100⟩] 2097152
    rfl rfl (by decide)

end ShaderLab
